import Mathlib

/-!
# Verification of the thermostat control loop and MQTT bridge

A shallow embedding of `backend/src/services/logic.ts`,
`backend/src/services/mqtt.ts` and `backend/src/hardware/relay.ts`.
All module-level mutable variables of those modules are collected into a
single record `Sys`; each exported function becomes a pure state
transformer.  External effects are made explicit:

* a sensor read is an `Option ℚ` (`none` models a thrown `SensorError`);
* a relay call carries a `Bool` outcome (`false` models a `digitalWrite`
  exception, in which case `relayState` stays unchanged and the call
  reports failure, exactly as in `relay.ts`);
* `Date.now()` values are passed in as `ℤ` milliseconds;
* the Mongo persistence of the setpoint is a `dbOk : Bool` outcome and a
  `persistedTarget` field.

Ghost (observation) fields that do not exist in the source but only record
what the source does are: `published` (every successful
`mqttClient.publish`), `relayCmds` (every `digitalWrite` issued by the
relay module, `true` = on command), `toggleTimes` (the instants at which
`controlHeating` performed a successful toggle, i.e. the assignments
`lastControlAction = now`), and `notifications` (the critical-error
observer callbacks fired by `notifyCriticalError`).
-/

namespace Thermostat

/-- A JSON scalar as it appears in the `value` field of the MQTT payloads. -/
inductive PVal where
  | num (q : ℚ)
  | bool (b : Bool)
  | str (s : String)
deriving DecidableEq, Repr

/-- A parsed JSON object: field names with scalar values. -/
def Payload := List (String × PVal)

/-- Source `termostato/status/temperature` from `DEFAULT_MQTT_CONFIG.topics`. -/
def temperatureTopic : String := "termostato/status/temperature"

/-- Source `termostato/status/relay`. -/
def relayTopic : String := "termostato/status/relay"

/-- Source `termostato/status/setpoint`. -/
def setpointTopic : String := "termostato/status/setpoint"

/-- Source `termostato/status/online`. -/
def onlineTopic : String := "termostato/status/online"

/-- Source `termostato/status/mode`. -/
def modeTopic : String := "termostato/status/mode"

/-- Source `ThermostatState` of `logic.ts` (the module variable `thermostatState`). -/
structure ThermostatState where
  currentTemperature : ℚ
  targetTemperature : ℚ
  hysteresis : ℚ
  isHeating : Bool
  lastUpdated : ℤ
  isRunning : Bool
  lastError : Option String
  consecutiveErrors : ℕ
deriving DecidableEq, Repr

/-- Source `ThermostatConfig` of `logic.ts` (the module variable `thermostatConfig`). -/
structure ThermostatConfig where
  targetTemperature : ℚ
  hysteresis : ℚ
  checkIntervalMs : ℕ
  maxConsecutiveErrors : ℕ
deriving DecidableEq, Repr

/-- The partial config accepted by `startThermostat` (`Partial<ThermostatConfig>`). -/
structure PartialConfig where
  targetTemperature : Option ℚ
  hysteresis : Option ℚ
  checkIntervalMs : Option ℕ
  maxConsecutiveErrors : Option ℕ
deriving DecidableEq, Repr

/-- The empty partial config (`startThermostat()` with no argument). -/
def noConfig : PartialConfig := ⟨none, none, none, none⟩

/-- Source `DEFAULT_CONFIG` of `logic.ts`. -/
def DEFAULT_CONFIG : ThermostatConfig :=
  { targetTemperature := 22
    hysteresis := 1.5
    checkIntervalMs := 3000
    maxConsecutiveErrors := 5 }

/-- The spread `{ ...DEFAULT_CONFIG, ...config }` at the top of `startThermostat`. -/
def mergedConfig (c : PartialConfig) : ThermostatConfig :=
  { targetTemperature := c.targetTemperature.getD DEFAULT_CONFIG.targetTemperature
    hysteresis := c.hysteresis.getD DEFAULT_CONFIG.hysteresis
    checkIntervalMs := c.checkIntervalMs.getD DEFAULT_CONFIG.checkIntervalMs
    maxConsecutiveErrors := c.maxConsecutiveErrors.getD DEFAULT_CONFIG.maxConsecutiveErrors }

/-- Source `MqttServiceState` of `mqtt.ts` (the module variable `serviceState`). -/
structure MqttState where
  isConnected : Bool
  isEnabled : Bool
  lastPublishTime : Option ℤ
  lastError : Option String
  reconnectAttempts : ℕ
  maxReconnectAttempts : ℕ
deriving DecidableEq, Repr

/-- The whole mutable state of the backend process: the module variables of
`logic.ts` (`thermostatState`, `thermostatConfig`, `thermostatInterval`,
`lastControlAction`), of `relay.ts` (`relayState`), of `mqtt.ts`
(`serviceState`, `mqttClient`, `publishInterval`), the persisted setpoint,
and the ghost observation logs. -/
structure Sys where
  state : ThermostatState
  config : ThermostatConfig
  /-- Source `thermostatInterval !== null`: the periodic tick timer is armed. -/
  intervalActive : Bool
  lastControlAction : ℤ
  /-- Source `relayState` of `relay.ts`: the physical actuator output. -/
  relayState : Bool
  /-- The `targetTemperature` row of the Mongo settings collection. -/
  persistedTarget : Option ℚ
  mqtt : MqttState
  /-- Source `mqttClient !== null`. -/
  clientPresent : Bool
  /-- Source `publishInterval !== null`: the periodic publish timer of the bridge. -/
  publishTimerActive : Bool
  /-- Ghost: every message successfully handed to `mqttClient.publish`. -/
  published : List (String × PVal)
  /-- Ghost: every `digitalWrite` command issued to the relay, `true` = on. -/
  relayCmds : List Bool
  /-- Ghost: the times at which `controlHeating` completed a toggle. -/
  toggleTimes : List ℤ
  /-- Ghost: the messages delivered to the critical-error observers. -/
  notifications : List String
deriving DecidableEq, Repr

/-- The outcomes of the external calls a single operation may make:
the clock, the sensor read (`none` = throw) and the relay call outcome. -/
structure TickEnv where
  now : ℤ
  sensor : Option ℚ
  relayOk : Bool
deriving DecidableEq, Repr

/-- The state of the process right after module initialization, at time
`t0`: `thermostatState` as initialized in `logic.ts`, `serviceState` as
initialized in `mqtt.ts`, `lastControlAction = Date.now()` at load. -/
def initialSys (t0 : ℤ) : Sys :=
  { state :=
      { currentTemperature := 0
        targetTemperature := DEFAULT_CONFIG.targetTemperature
        hysteresis := DEFAULT_CONFIG.hysteresis
        isHeating := false
        lastUpdated := t0
        isRunning := false
        lastError := none
        consecutiveErrors := 0 }
    config := DEFAULT_CONFIG
    intervalActive := false
    lastControlAction := t0
    relayState := false
    persistedTarget := none
    mqtt :=
      { isConnected := false
        isEnabled := false
        lastPublishTime := none
        lastError := none
        reconnectAttempts := 0
        maxReconnectAttempts := 10 }
    clientPresent := false
    publishTimerActive := false
    published := []
    relayCmds := []
    toggleTimes := []
    notifications := [] }

/-- Source `lastError` text recorded by `handleSensorError` (the sensor exception message). -/
def sensorReadErrMsg : String := "Error leyendo el sensor"

/-- The observer message of the `handleSensorError` shutdown path. -/
def sensorPauseMsg : String :=
  "Sensor error: Se pauso el termostato por demasiados errores consecutivos de sensor."

/-- The observer message of the tick-callback shutdown path in `startThermostat`. -/
def tooManyErrMsg : String :=
  "Demasiados errores consecutivos, apagando termostato por seguridad"

/-- Source `lastError` recorded when `setTargetTemperature` rejects an out-of-range value. -/
def rangeTempErrMsg : String :=
  "Error al configurar temperatura objetivo: Temperatura fuera de rango valido"

/-- Source `lastError` recorded when `setHysteresis` rejects an out-of-range value. -/
def rangeHystErrMsg : String :=
  "Error al configurar histeresis: Valor de histeresis invalido"

/-- Source `lastError` recorded when the Mongo update in `setTargetTemperature` throws. -/
def dbErrMsg : String :=
  "Error al configurar temperatura objetivo: error de base de datos"

/-- Source `lastError` recorded when `controlHeating` fails to switch the relay off. -/
def relayOffErrMsg : String := "Error al intentar apagar la calefaccion"

/-- Source `lastError` recorded when `controlHeating` fails to switch the relay on. -/
def relayOnErrMsg : String := "Error al intentar encender la calefaccion"

/-- Source `validateTemperatureValue` of `logic.ts`: `5 <= t && t <= 30`. -/
def validateTemperatureValue (temperature : ℚ) : Bool :=
  decide (5 ≤ temperature) && decide (temperature ≤ 30)

/-- Source `validateHysteresisValue` of `logic.ts`: `0 < h && h <= 5`. -/
def validateHysteresisValue (hysteresis : ℚ) : Bool :=
  decide (0 < hysteresis) && decide (hysteresis ≤ 5)

/-- Source `publishMessage` of `mqtt.ts`: drops the message unless the client
exists and the service is connected; otherwise hands it to the broker
(recorded in the ghost `published` log; timestamps of envelopes elided). -/
def publishMessage (topic : String) (v : PVal) (s : Sys) : Sys :=
  if s.clientPresent && s.mqtt.isConnected then
    { s with published := s.published ++ [(topic, v)] }
  else s

/-- Source `publishSetpointUpdate` of `mqtt.ts`. -/
def publishSetpointUpdate (newSetpoint : ℚ) (s : Sys) : Sys :=
  if s.mqtt.isConnected then publishMessage setpointTopic (PVal.num newSetpoint) s else s

/-- Source `publishModeUpdate` of `mqtt.ts`. -/
def publishModeUpdate (newMode : String) (s : Sys) : Sys :=
  if s.mqtt.isConnected && (newMode == "heat" || newMode == "off") then
    publishMessage modeTopic (PVal.str newMode) s
  else s

/-- Source `notifyCriticalError` of `logic.ts`: fires every registered handler. -/
def notifyCriticalError (msg : String) (s : Sys) : Sys :=
  { s with notifications := s.notifications ++ [msg] }

/-- Source `resetErrorCounter` of `logic.ts`. -/
def resetErrorCounter (s : Sys) : Sys :=
  { s with state.consecutiveErrors := 0 }

/-- Source `turnOnRelay` of `relay.ts`: issues the on command; on success the
relay latches on and `true` is returned, on a `digitalWrite` exception the
state is unchanged and `false` is returned. -/
def turnOnRelay (ok : Bool) (s : Sys) : Sys × Bool :=
  let s := { s with relayCmds := s.relayCmds ++ [true] }
  if ok then ({ s with relayState := true }, true) else (s, false)

/-- Source `turnOffRelay` of `relay.ts`. -/
def turnOffRelay (ok : Bool) (s : Sys) : Sys × Bool :=
  let s := { s with relayCmds := s.relayCmds ++ [false] }
  if ok then ({ s with relayState := false }, true) else (s, false)

/-- Source `handleSensorError` of `logic.ts`: count the error, record it, and if
the counter reached `maxConsecutiveErrors` pause the thermostat (clear
`isRunning`, clear the timer) and notify the observers. -/
def handleSensorError (msg : String) (s : Sys) : Sys :=
  let s := { s with
    state.consecutiveErrors := s.state.consecutiveErrors + 1
    state.lastError := some msg }
  if s.config.maxConsecutiveErrors ≤ s.state.consecutiveErrors then
    notifyCriticalError sensorPauseMsg
      { s with state.isRunning := false, intervalActive := false }
  else s

/-- Source `updateCurrentState` of `logic.ts`: read the sensor; on success reset
the error counter and refresh `currentTemperature`, `isHeating`
(from `getRelayState()`) and `lastUpdated`; on a throw run
`handleSensorError` and report failure. -/
def updateCurrentState (e : TickEnv) (s : Sys) : Sys × Bool :=
  match e.sensor with
  | some t =>
      ({ s with
          state.consecutiveErrors := 0
          state.currentTemperature := t
          state.isHeating := s.relayState
          state.lastUpdated := e.now }, true)
  | none => (handleSensorError sensorReadErrMsg s, false)

/-- Source `controlHeating` of `logic.ts`: the hysteresis decision over
`thermostatConfig.targetTemperature` and `thermostatConfig.hysteresis`,
gated by `isRunning` and by the 30 s minimum-action interval. -/
def controlHeating (now : ℤ) (relayOk : Bool) (s : Sys) : Sys :=
  if !s.state.isRunning then s
  else if now - s.lastControlAction < 30000 then s
  else if s.state.isHeating then
    if s.config.targetTemperature ≤ s.state.currentTemperature then
      let r := turnOffRelay relayOk s
      if r.2 then
        { r.1 with
            state.isHeating := false
            lastControlAction := now
            toggleTimes := r.1.toggleTimes ++ [now] }
      else { r.1 with state.lastError := some relayOffErrMsg }
    else s
  else
    if s.state.currentTemperature < s.config.targetTemperature - s.config.hysteresis then
      let r := turnOnRelay relayOk s
      if r.2 then
        { r.1 with
            state.isHeating := true
            lastControlAction := now
            toggleTimes := r.1.toggleTimes ++ [now] }
      else { r.1 with state.lastError := some relayOnErrMsg }
    else s

/-- Source `startThermostat` of `logic.ts`.  Note that the config merge happens
before the `isRunning` guard, and that the initial sensor read is made
before the timer is armed and before `isRunning` is set. -/
def startThermostat (cfg : PartialConfig) (e : TickEnv) (s : Sys) : Sys × Bool :=
  let s := { s with config := mergedConfig cfg }
  if !s.state.isRunning then
    let s := { s with state.lastError := none, state.consecutiveErrors := 0 }
    let s := (updateCurrentState e s).1
    let s := { s with intervalActive := true, state.isRunning := true }
    (publishModeUpdate "heat" s, true)
  else
    (s, true)

/-- Source `stopThermostat` of `logic.ts`: only acts when running with an armed
timer; switches the relay off only when `isHeating`, clearing `isHeating`
even if the relay call failed; returns the relay outcome. -/
def stopThermostat (relayOk : Bool) (s : Sys) : Sys × Bool :=
  if s.state.isRunning && s.intervalActive then
    let s := { s with intervalActive := false }
    let r :=
      if s.state.isHeating then
        let r := turnOffRelay relayOk s
        ({ r.1 with state.isHeating := false }, r.2)
      else (s, true)
    let s := { r.1 with state.isRunning := false }
    (publishModeUpdate "off" s, r.2)
  else (s, true)

/-- Source `setTargetTemperature` of `logic.ts`: validate, update config and
state, persist, and when running re-run the sensor read and the
hysteresis decision at once; finally publish the new setpoint. -/
def setTargetTemperature (temperature : ℚ) (dbOk : Bool) (e : TickEnv) (s : Sys) :
    Sys × Bool :=
  if !validateTemperatureValue temperature then
    ({ s with state.lastError := some rangeTempErrMsg }, false)
  else
    let s := { s with
      config.targetTemperature := temperature
      state.targetTemperature := temperature }
    if dbOk then
      let s := { s with persistedTarget := some temperature }
      let s :=
        if s.state.isRunning then
          controlHeating e.now e.relayOk (updateCurrentState e s).1
        else s
      (publishSetpointUpdate temperature s, true)
    else
      ({ s with state.lastError := some dbErrMsg }, false)

/-- Source `setHysteresis` of `logic.ts`: validates and updates only the config. -/
def setHysteresis (hysteresis : ℚ) (s : Sys) : Sys × Bool :=
  if !validateHysteresisValue hysteresis then
    ({ s with state.lastError := some rangeHystErrMsg }, false)
  else
    ({ s with config.hysteresis := hysteresis }, true)

/-- The body of the `setInterval` callback armed by `startThermostat`. -/
def tickBody (e : TickEnv) (s : Sys) : Sys :=
  let r := updateCurrentState e s
  if r.2 then
    controlHeating e.now e.relayOk (resetErrorCounter r.1)
  else
    let s : Sys := { r.1 with state.consecutiveErrors := r.1.state.consecutiveErrors + 1 }
    if s.config.maxConsecutiveErrors ≤ s.state.consecutiveErrors then
      (stopThermostat e.relayOk (notifyCriticalError tooManyErrMsg s)).1
    else s

/-- One firing of the periodic timer: the callback runs only while the
timer is armed. -/
def tickStep (e : TickEnv) (s : Sys) : Sys :=
  if s.intervalActive then tickBody e s else s

/-- Source `resetThermostat` of `logic.ts`: capture `isRunning` and the config,
stop, clear the error state, and restart with the captured values only if
the loop had been running. -/
def resetThermostat (e : TickEnv) (s : Sys) : Sys × Bool :=
  let wasRunning := s.state.isRunning
  let tt := s.config.targetTemperature
  let h := s.config.hysteresis
  let r := stopThermostat e.relayOk s
  if !r.2 then (r.1, false)
  else
    let s := resetErrorCounter r.1
    let s := { s with state.lastError := none }
    if wasRunning then
      startThermostat ⟨some tt, some h, none, none⟩ e s
    else (s, true)

/-- Source `publishThermostatStatus` of `mqtt.ts`: when connected, publish the
snapshot as four retained messages; the mode is derived from `isRunning`
alone. -/
def publishThermostatStatus (now : ℤ) (s : Sys) : Sys :=
  if !s.mqtt.isConnected then s
  else
    let s := publishMessage temperatureTopic (PVal.num s.state.currentTemperature) s
    let s := publishMessage relayTopic (PVal.bool s.relayState) s
    let s := publishMessage setpointTopic (PVal.num s.state.targetTemperature) s
    let s := publishMessage modeTopic
      (PVal.str (if s.state.isRunning then "heat" else "off")) s
    { s with mqtt.lastPublishTime := some now, mqtt.lastError := none }

/-- Field lookup in a parsed JSON object. -/
def lookupField (field : String) : Payload → Option PVal
  | [] => none
  | (k, v) :: rest => if k == field then some v else lookupField field rest

/-- Source `handleRelayCommand` of `mqtt.ts`: with a boolean `value` field, drive
the relay to that value and immediately republish the relay state topic;
any other payload is dropped. -/
def handleRelayCommand (p : Payload) (relayOk : Bool) (s : Sys) : Sys :=
  match lookupField "value" p with
  | some (PVal.bool b) =>
      let s := if b then (turnOnRelay relayOk s).1 else (turnOffRelay relayOk s).1
      publishMessage relayTopic (PVal.bool b) s
  | _ => s

/-- Source `handleSetpointCommand` of `mqtt.ts`: with a numeric `value` field,
apply `setTargetTemperature` and on success republish the setpoint topic. -/
def handleSetpointCommand (p : Payload) (dbOk : Bool) (e : TickEnv) (s : Sys) : Sys :=
  match lookupField "value" p with
  | some (PVal.num v) =>
      let r := setTargetTemperature v dbOk e s
      if r.2 then publishMessage setpointTopic (PVal.num v) r.1 else r.1
  | _ => s

/-- Source `handleModeCommand` of `mqtt.ts`: with `value` equal to `heat` or
`off`, start or stop the thermostat and republish the mode topic with the
commanded value. -/
def handleModeCommand (p : Payload) (e : TickEnv) (s : Sys) : Sys :=
  match lookupField "value" p with
  | some (PVal.str v) =>
      if v == "heat" then
        publishMessage modeTopic (PVal.str v) (startThermostat noConfig e s).1
      else if v == "off" then
        publishMessage modeTopic (PVal.str v) (stopThermostat e.relayOk s).1
      else s
  | _ => s

/-- The `connect` handler installed by `initializeMqtt`: mark connected,
reset the reconnect counter, publish the online flag, publish a full
snapshot, and arm the periodic publish timer. -/
def onConnect (now : ℤ) (s : Sys) : Sys :=
  if s.clientPresent then
    let s := { s with
      mqtt.isConnected := true
      mqtt.reconnectAttempts := 0
      mqtt.lastError := none }
    let s := publishMessage onlineTopic (PVal.bool true) s
    let s := publishThermostatStatus now s
    { s with publishTimerActive := true }
  else s

/-- The `disconnect` handler of `initializeMqtt`. -/
def onDisconnect (s : Sys) : Sys :=
  if s.clientPresent then { s with mqtt.isConnected := false } else s

/-- The `error` handler of `initializeMqtt`. -/
def onMqttError (msg : String) (s : Sys) : Sys :=
  if s.clientPresent then
    { s with mqtt.lastError := some msg, mqtt.isConnected := false }
  else s

/-- Source `stopMqtt` of `mqtt.ts`: disable the service, cancel the publish
timer, publish the offline flag when still connected, drop the client and
reset the connection counters. -/
def stopMqtt (s : Sys) : Sys :=
  let s := { s with mqtt.isEnabled := false, publishTimerActive := false }
  let s :=
    if s.clientPresent then
      let s := if s.mqtt.isConnected then
        publishMessage onlineTopic (PVal.bool false) s else s
      { s with clientPresent := false }
    else s
  { s with
      mqtt.isConnected := false
      mqtt.lastPublishTime := none
      mqtt.reconnectAttempts := 0 }

/-- The `reconnect` handler of `initializeMqtt`: count the attempt and
once the counter reaches `maxReconnectAttempts` stop the whole service. -/
def onReconnect (s : Sys) : Sys :=
  if s.clientPresent then
    let s := { s with mqtt.reconnectAttempts := s.mqtt.reconnectAttempts + 1 }
    if s.mqtt.maxReconnectAttempts ≤ s.mqtt.reconnectAttempts then stopMqtt s
    else s
  else s

/-- The `close` handler of `initializeMqtt`. -/
def onClose (s : Sys) : Sys :=
  if s.clientPresent then { s with mqtt.isConnected := false } else s

/-- The success path of `initializeMqtt`: create the client and enable
the service (the event handlers above fire afterwards). -/
def initializeMqtt (s : Sys) : Sys :=
  { s with clientPresent := true, mqtt.isEnabled := true }

/-- The public operations that mutate `ThermostatState`: the exported API
of `logic.ts`, a timer tick, and the three MQTT command handlers. -/
inductive Op where
  | start (cfg : PartialConfig) (e : TickEnv)
  | stop (relayOk : Bool)
  | tick (e : TickEnv)
  | setTarget (v : ℚ) (dbOk : Bool) (e : TickEnv)
  | setHyst (v : ℚ)
  | reset (e : TickEnv)
  | relayCmd (p : Payload) (relayOk : Bool)
  | setpointCmd (p : Payload) (dbOk : Bool) (e : TickEnv)
  | modeCmd (p : Payload) (e : TickEnv)

/-- The state transformer of one public operation. -/
def step : Op → Sys → Sys
  | .start cfg e, s => (startThermostat cfg e s).1
  | .stop relayOk, s => (stopThermostat relayOk s).1
  | .tick e, s => tickStep e s
  | .setTarget v dbOk e, s => (setTargetTemperature v dbOk e s).1
  | .setHyst v, s => (setHysteresis v s).1
  | .reset e, s => (resetThermostat e s).1
  | .relayCmd p relayOk, s => handleRelayCommand p relayOk s
  | .setpointCmd p dbOk e, s => handleSetpointCommand p dbOk e s
  | .modeCmd p e, s => handleModeCommand p e s

/-- Running a sequence of public operations. -/
def run (ops : List Op) (s : Sys) : Sys :=
  ops.foldl (fun t op => step op t) s

/-- Two instants at least the 30 s minimum-action interval apart. -/
def minSep (a b : ℤ) : Prop := a + 30000 ≤ b

/-- The toggle bookkeeping invariant: the control-loop toggles recorded so
far are chronological with gaps of at least 30 s, and none is later than
`lastControlAction`. -/
def TogglesOk (s : Sys) : Prop :=
  List.Chain' minSep s.toggleTimes ∧ ∀ t ∈ s.toggleTimes, t ≤ s.lastControlAction

/-- An environment whose sensor read succeeds with reading `temp`. -/
def envOk (t : ℤ) (temp : ℚ) : TickEnv := ⟨t, some temp, true⟩

/-- An environment whose sensor read throws. -/
def envFail (t : ℤ) : TickEnv := ⟨t, none, true⟩

/-- A reachable running-and-heating state: start at 19 °C against the
default 22 °C setpoint, then one successful tick that switches the relay
on. -/
def demoHeating : Sys :=
  run [Op.start noConfig (envOk 0 19), Op.tick (envOk 40000 19)] (initialSys 0)

/-- Three consecutive timer firings whose sensor reads all throw. -/
def failTicks : List Op :=
  [Op.tick (envFail 50000), Op.tick (envFail 60000), Op.tick (envFail 70000)]

/-- The public-operation sequence of the safety-shutdown scenario:
start, one heating tick, then three consecutive failed sensor reads. -/
def shutdownOps : List Op :=
  [Op.start noConfig (envOk 0 19), Op.tick (envOk 40000 19)] ++ failTicks

/-- A relay command payload with boolean value `true`. -/
def relayOnPayload : Payload := [("value", PVal.bool true)]

/-- The scenario refuting that `stopThermostat` always leaves the actuator
off: start the loop, switch the relay on through the MQTT relay command
(which does not touch `isHeating`), then stop. -/
def c3fin : Sys :=
  run [Op.start noConfig (envOk 0 25), Op.relayCmd relayOnPayload true, Op.stop true]
    (initialSys 0)

/-- A running state started with target 25 °C, for the restart scenario. -/
def c7run : Sys :=
  (startThermostat ⟨some 25, none, none, none⟩ (envOk 0 20) (initialSys 0)).1

/-- A freshly initialized process whose bridge is connected. -/
def connectedDemo : Sys :=
  { initialSys 0 with mqtt.isConnected := true, clientPresent := true }

/-- A connected bridge that has already made nine reconnect attempts. -/
def reconnectDemo : Sys :=
  { initialSys 0 with clientPresent := true, mqtt.reconnectAttempts := 9 }

/-! ## Frame lemmas

`publishMessage` and its wrappers only append to the `published` log. -/

@[simp] theorem publishMessage_state (t : String) (v : PVal) (s : Sys) :
    (publishMessage t v s).state = s.state := by
  unfold publishMessage; split <;> rfl

@[simp] theorem publishMessage_config (t : String) (v : PVal) (s : Sys) :
    (publishMessage t v s).config = s.config := by
  unfold publishMessage; split <;> rfl

@[simp] theorem publishMessage_intervalActive (t : String) (v : PVal) (s : Sys) :
    (publishMessage t v s).intervalActive = s.intervalActive := by
  unfold publishMessage; split <;> rfl

@[simp] theorem publishMessage_lastControlAction (t : String) (v : PVal) (s : Sys) :
    (publishMessage t v s).lastControlAction = s.lastControlAction := by
  unfold publishMessage; split <;> rfl

@[simp] theorem publishMessage_relayState (t : String) (v : PVal) (s : Sys) :
    (publishMessage t v s).relayState = s.relayState := by
  unfold publishMessage; split <;> rfl

@[simp] theorem publishMessage_persistedTarget (t : String) (v : PVal) (s : Sys) :
    (publishMessage t v s).persistedTarget = s.persistedTarget := by
  unfold publishMessage; split <;> rfl

@[simp] theorem publishMessage_clientPresent (t : String) (v : PVal) (s : Sys) :
    (publishMessage t v s).clientPresent = s.clientPresent := by
  unfold publishMessage; split <;> rfl

@[simp] theorem publishMessage_mqtt (t : String) (v : PVal) (s : Sys) :
    (publishMessage t v s).mqtt = s.mqtt := by
  unfold publishMessage; split <;> rfl

@[simp] theorem publishMessage_publishTimerActive (t : String) (v : PVal) (s : Sys) :
    (publishMessage t v s).publishTimerActive = s.publishTimerActive := by
  unfold publishMessage; split <;> rfl

@[simp] theorem publishMessage_relayCmds (t : String) (v : PVal) (s : Sys) :
    (publishMessage t v s).relayCmds = s.relayCmds := by
  unfold publishMessage; split <;> rfl

@[simp] theorem publishMessage_toggleTimes (t : String) (v : PVal) (s : Sys) :
    (publishMessage t v s).toggleTimes = s.toggleTimes := by
  unfold publishMessage; split <;> rfl

@[simp] theorem publishMessage_notifications (t : String) (v : PVal) (s : Sys) :
    (publishMessage t v s).notifications = s.notifications := by
  unfold publishMessage; split <;> rfl

@[simp] theorem publishModeUpdate_state (m : String) (s : Sys) :
    (publishModeUpdate m s).state = s.state := by
  unfold publishModeUpdate; split <;> simp

@[simp] theorem publishModeUpdate_config (m : String) (s : Sys) :
    (publishModeUpdate m s).config = s.config := by
  unfold publishModeUpdate; split <;> simp

@[simp] theorem publishModeUpdate_intervalActive (m : String) (s : Sys) :
    (publishModeUpdate m s).intervalActive = s.intervalActive := by
  unfold publishModeUpdate; split <;> simp

@[simp] theorem publishModeUpdate_lastControlAction (m : String) (s : Sys) :
    (publishModeUpdate m s).lastControlAction = s.lastControlAction := by
  unfold publishModeUpdate; split <;> simp

@[simp] theorem publishModeUpdate_relayState (m : String) (s : Sys) :
    (publishModeUpdate m s).relayState = s.relayState := by
  unfold publishModeUpdate; split <;> simp

@[simp] theorem publishModeUpdate_relayCmds (m : String) (s : Sys) :
    (publishModeUpdate m s).relayCmds = s.relayCmds := by
  unfold publishModeUpdate; split <;> simp

@[simp] theorem publishModeUpdate_toggleTimes (m : String) (s : Sys) :
    (publishModeUpdate m s).toggleTimes = s.toggleTimes := by
  unfold publishModeUpdate; split <;> simp

@[simp] theorem publishSetpointUpdate_state (v : ℚ) (s : Sys) :
    (publishSetpointUpdate v s).state = s.state := by
  unfold publishSetpointUpdate; split <;> simp

@[simp] theorem publishSetpointUpdate_config (v : ℚ) (s : Sys) :
    (publishSetpointUpdate v s).config = s.config := by
  unfold publishSetpointUpdate; split <;> simp

@[simp] theorem publishSetpointUpdate_relayState (v : ℚ) (s : Sys) :
    (publishSetpointUpdate v s).relayState = s.relayState := by
  unfold publishSetpointUpdate; split <;> simp

@[simp] theorem publishSetpointUpdate_relayCmds (v : ℚ) (s : Sys) :
    (publishSetpointUpdate v s).relayCmds = s.relayCmds := by
  unfold publishSetpointUpdate; split <;> simp

@[simp] theorem publishSetpointUpdate_toggleTimes (v : ℚ) (s : Sys) :
    (publishSetpointUpdate v s).toggleTimes = s.toggleTimes := by
  unfold publishSetpointUpdate; split <;> simp

@[simp] theorem publishSetpointUpdate_lastControlAction (v : ℚ) (s : Sys) :
    (publishSetpointUpdate v s).lastControlAction = s.lastControlAction := by
  unfold publishSetpointUpdate; split <;> simp

@[simp] theorem publishSetpointUpdate_persistedTarget (v : ℚ) (s : Sys) :
    (publishSetpointUpdate v s).persistedTarget = s.persistedTarget := by
  unfold publishSetpointUpdate; split <;> simp

/-! ## Frame lemmas for the control-loop helpers -/

@[simp] theorem turnOnRelay_state (ok : Bool) (s : Sys) :
    (turnOnRelay ok s).1.state = s.state := by
  unfold turnOnRelay; cases ok <;> rfl

@[simp] theorem turnOnRelay_config (ok : Bool) (s : Sys) :
    (turnOnRelay ok s).1.config = s.config := by
  unfold turnOnRelay; cases ok <;> rfl

@[simp] theorem turnOnRelay_intervalActive (ok : Bool) (s : Sys) :
    (turnOnRelay ok s).1.intervalActive = s.intervalActive := by
  unfold turnOnRelay; cases ok <;> rfl

@[simp] theorem turnOnRelay_lastControlAction (ok : Bool) (s : Sys) :
    (turnOnRelay ok s).1.lastControlAction = s.lastControlAction := by
  unfold turnOnRelay; cases ok <;> rfl

@[simp] theorem turnOnRelay_toggleTimes (ok : Bool) (s : Sys) :
    (turnOnRelay ok s).1.toggleTimes = s.toggleTimes := by
  unfold turnOnRelay; cases ok <;> rfl

@[simp] theorem turnOnRelay_published (ok : Bool) (s : Sys) :
    (turnOnRelay ok s).1.published = s.published := by
  unfold turnOnRelay; cases ok <;> rfl

@[simp] theorem turnOnRelay_notifications (ok : Bool) (s : Sys) :
    (turnOnRelay ok s).1.notifications = s.notifications := by
  unfold turnOnRelay; cases ok <;> rfl

@[simp] theorem turnOnRelay_persistedTarget (ok : Bool) (s : Sys) :
    (turnOnRelay ok s).1.persistedTarget = s.persistedTarget := by
  unfold turnOnRelay; cases ok <;> rfl

@[simp] theorem turnOnRelay_mqtt (ok : Bool) (s : Sys) :
    (turnOnRelay ok s).1.mqtt = s.mqtt := by
  unfold turnOnRelay; cases ok <;> rfl

@[simp] theorem turnOnRelay_clientPresent (ok : Bool) (s : Sys) :
    (turnOnRelay ok s).1.clientPresent = s.clientPresent := by
  unfold turnOnRelay; cases ok <;> rfl

@[simp] theorem turnOnRelay_relayCmds (ok : Bool) (s : Sys) :
    (turnOnRelay ok s).1.relayCmds = s.relayCmds ++ [true] := by
  unfold turnOnRelay; cases ok <;> rfl

@[simp] theorem turnOnRelay_snd (ok : Bool) (s : Sys) :
    (turnOnRelay ok s).2 = ok := by
  unfold turnOnRelay; cases ok <;> rfl

@[simp] theorem turnOnRelay_relayState (ok : Bool) (s : Sys) :
    (turnOnRelay ok s).1.relayState = (if ok then true else s.relayState) := by
  unfold turnOnRelay; cases ok <;> rfl

@[simp] theorem turnOffRelay_state (ok : Bool) (s : Sys) :
    (turnOffRelay ok s).1.state = s.state := by
  unfold turnOffRelay; cases ok <;> rfl

@[simp] theorem turnOffRelay_config (ok : Bool) (s : Sys) :
    (turnOffRelay ok s).1.config = s.config := by
  unfold turnOffRelay; cases ok <;> rfl

@[simp] theorem turnOffRelay_intervalActive (ok : Bool) (s : Sys) :
    (turnOffRelay ok s).1.intervalActive = s.intervalActive := by
  unfold turnOffRelay; cases ok <;> rfl

@[simp] theorem turnOffRelay_lastControlAction (ok : Bool) (s : Sys) :
    (turnOffRelay ok s).1.lastControlAction = s.lastControlAction := by
  unfold turnOffRelay; cases ok <;> rfl

@[simp] theorem turnOffRelay_toggleTimes (ok : Bool) (s : Sys) :
    (turnOffRelay ok s).1.toggleTimes = s.toggleTimes := by
  unfold turnOffRelay; cases ok <;> rfl

@[simp] theorem turnOffRelay_published (ok : Bool) (s : Sys) :
    (turnOffRelay ok s).1.published = s.published := by
  unfold turnOffRelay; cases ok <;> rfl

@[simp] theorem turnOffRelay_notifications (ok : Bool) (s : Sys) :
    (turnOffRelay ok s).1.notifications = s.notifications := by
  unfold turnOffRelay; cases ok <;> rfl

@[simp] theorem turnOffRelay_persistedTarget (ok : Bool) (s : Sys) :
    (turnOffRelay ok s).1.persistedTarget = s.persistedTarget := by
  unfold turnOffRelay; cases ok <;> rfl

@[simp] theorem turnOffRelay_mqtt (ok : Bool) (s : Sys) :
    (turnOffRelay ok s).1.mqtt = s.mqtt := by
  unfold turnOffRelay; cases ok <;> rfl

@[simp] theorem turnOffRelay_clientPresent (ok : Bool) (s : Sys) :
    (turnOffRelay ok s).1.clientPresent = s.clientPresent := by
  unfold turnOffRelay; cases ok <;> rfl

@[simp] theorem turnOffRelay_relayCmds (ok : Bool) (s : Sys) :
    (turnOffRelay ok s).1.relayCmds = s.relayCmds ++ [false] := by
  unfold turnOffRelay; cases ok <;> rfl

@[simp] theorem turnOffRelay_snd (ok : Bool) (s : Sys) :
    (turnOffRelay ok s).2 = ok := by
  unfold turnOffRelay; cases ok <;> rfl

@[simp] theorem turnOffRelay_relayState (ok : Bool) (s : Sys) :
    (turnOffRelay ok s).1.relayState = (if ok then false else s.relayState) := by
  unfold turnOffRelay; cases ok <;> rfl

@[simp] theorem handleSensorError_toggleTimes (m : String) (s : Sys) :
    (handleSensorError m s).toggleTimes = s.toggleTimes := by
  unfold handleSensorError notifyCriticalError; dsimp only; split <;> rfl

@[simp] theorem handleSensorError_lastControlAction (m : String) (s : Sys) :
    (handleSensorError m s).lastControlAction = s.lastControlAction := by
  unfold handleSensorError notifyCriticalError; dsimp only; split <;> rfl

@[simp] theorem handleSensorError_relayState (m : String) (s : Sys) :
    (handleSensorError m s).relayState = s.relayState := by
  unfold handleSensorError notifyCriticalError; dsimp only; split <;> rfl

@[simp] theorem handleSensorError_relayCmds (m : String) (s : Sys) :
    (handleSensorError m s).relayCmds = s.relayCmds := by
  unfold handleSensorError notifyCriticalError; dsimp only; split <;> rfl

@[simp] theorem handleSensorError_config (m : String) (s : Sys) :
    (handleSensorError m s).config = s.config := by
  unfold handleSensorError notifyCriticalError; dsimp only; split <;> rfl

@[simp] theorem handleSensorError_persistedTarget (m : String) (s : Sys) :
    (handleSensorError m s).persistedTarget = s.persistedTarget := by
  unfold handleSensorError notifyCriticalError; dsimp only; split <;> rfl

@[simp] theorem handleSensorError_targetTemperature (m : String) (s : Sys) :
    (handleSensorError m s).state.targetTemperature = s.state.targetTemperature := by
  unfold handleSensorError notifyCriticalError; dsimp only; split <;> rfl

@[simp] theorem updateCurrentState_toggleTimes (e : TickEnv) (s : Sys) :
    (updateCurrentState e s).1.toggleTimes = s.toggleTimes := by
  unfold updateCurrentState; cases e.sensor <;> simp

@[simp] theorem updateCurrentState_lastControlAction (e : TickEnv) (s : Sys) :
    (updateCurrentState e s).1.lastControlAction = s.lastControlAction := by
  unfold updateCurrentState; cases e.sensor <;> simp

@[simp] theorem updateCurrentState_relayState (e : TickEnv) (s : Sys) :
    (updateCurrentState e s).1.relayState = s.relayState := by
  unfold updateCurrentState; cases e.sensor <;> simp

@[simp] theorem updateCurrentState_relayCmds (e : TickEnv) (s : Sys) :
    (updateCurrentState e s).1.relayCmds = s.relayCmds := by
  unfold updateCurrentState; cases e.sensor <;> simp

@[simp] theorem updateCurrentState_config (e : TickEnv) (s : Sys) :
    (updateCurrentState e s).1.config = s.config := by
  unfold updateCurrentState; cases e.sensor <;> simp

@[simp] theorem updateCurrentState_persistedTarget (e : TickEnv) (s : Sys) :
    (updateCurrentState e s).1.persistedTarget = s.persistedTarget := by
  unfold updateCurrentState; cases e.sensor <;> simp

@[simp] theorem updateCurrentState_targetTemperature (e : TickEnv) (s : Sys) :
    (updateCurrentState e s).1.state.targetTemperature = s.state.targetTemperature := by
  unfold updateCurrentState; cases e.sensor <;> simp

@[simp] theorem resetErrorCounter_toggleTimes (s : Sys) :
    (resetErrorCounter s).toggleTimes = s.toggleTimes := rfl

@[simp] theorem resetErrorCounter_lastControlAction (s : Sys) :
    (resetErrorCounter s).lastControlAction = s.lastControlAction := rfl

@[simp] theorem notifyCriticalError_toggleTimes (m : String) (s : Sys) :
    (notifyCriticalError m s).toggleTimes = s.toggleTimes := rfl

@[simp] theorem notifyCriticalError_lastControlAction (m : String) (s : Sys) :
    (notifyCriticalError m s).lastControlAction = s.lastControlAction := rfl

@[simp] theorem stopThermostat_toggleTimes (ok : Bool) (s : Sys) :
    (stopThermostat ok s).1.toggleTimes = s.toggleTimes := by
  unfold stopThermostat; dsimp only; split_ifs <;> simp

@[simp] theorem stopThermostat_lastControlAction (ok : Bool) (s : Sys) :
    (stopThermostat ok s).1.lastControlAction = s.lastControlAction := by
  unfold stopThermostat; dsimp only; split_ifs <;> simp

@[simp] theorem startThermostat_toggleTimes (cfg : PartialConfig) (e : TickEnv) (s : Sys) :
    (startThermostat cfg e s).1.toggleTimes = s.toggleTimes := by
  unfold startThermostat; dsimp only; split_ifs <;> simp

@[simp] theorem startThermostat_lastControlAction (cfg : PartialConfig) (e : TickEnv) (s : Sys) :
    (startThermostat cfg e s).1.lastControlAction = s.lastControlAction := by
  unfold startThermostat; dsimp only; split_ifs <;> simp

/-! ## The toggle-separation invariant -/

theorem togglesOk_congr (s s' : Sys) (h1 : s.toggleTimes = s'.toggleTimes)
    (h2 : s.lastControlAction = s'.lastControlAction) (h : TogglesOk s') :
    TogglesOk s := by
  unfold TogglesOk at *; rw [h1, h2]; exact h

theorem controlHeating_togglesOk (now : ℤ) (ok : Bool) (s : Sys)
    (h : TogglesOk s) : TogglesOk (controlHeating now ok s) := by
  obtain ⟨hchain, hle⟩ := h
  have key : ¬ now - s.lastControlAction < 30000 →
      List.Chain' minSep (s.toggleTimes ++ [now]) ∧
      ∀ t ∈ s.toggleTimes ++ [now], t ≤ now := by
    intro hgate
    have hnow : s.lastControlAction + 30000 ≤ now := by omega
    constructor
    · rw [List.chain'_append]
      refine ⟨hchain, List.chain'_singleton now, ?_⟩
      intro x hx y hy
      have hxmem : x ∈ s.toggleTimes := by
        obtain ⟨hne, hx'⟩ := List.mem_getLast?_eq_getLast hx
        rw [hx']; exact List.getLast_mem hne
      have hy' : now = y := by simpa using hy
      have := hle x hxmem
      rw [← hy']; unfold minSep; omega
    · intro t ht
      rcases List.mem_append.1 ht with h1 | h1
      · have := hle t h1; omega
      · simp at h1; omega
  unfold controlHeating
  dsimp only
  split_ifs <;>
    first
      | exact ⟨hchain, hle⟩
      | exact ⟨by simpa using hchain, by simpa using hle⟩
      | exact ⟨by simpa using (key ‹¬ now - s.lastControlAction < 30000›).1,
               by simpa using (key ‹¬ now - s.lastControlAction < 30000›).2⟩

theorem tickStep_togglesOk (e : TickEnv) (s : Sys) (h : TogglesOk s) :
    TogglesOk (tickStep e s) := by
  unfold tickStep
  split_ifs with hI
  · unfold tickBody
    rcases hs : e.sensor with _ | t
    · simp only [updateCurrentState, hs]
      rw [if_neg (by simp)]
      split_ifs with hmax
      · exact togglesOk_congr _ s (by simp) (by simp) h
      · exact togglesOk_congr _ s (by simp) (by simp) h
    · simp only [updateCurrentState, hs]
      rw [if_pos trivial]
      exact controlHeating_togglesOk _ _ _
        (togglesOk_congr _ s (by simp) (by simp) h)
  · exact h

theorem ticks_togglesOk (es : List TickEnv) (s : Sys) (h : TogglesOk s) :
    TogglesOk (es.foldl (fun t e => tickStep e t) s) := by
  induction es generalizing s with
  | nil => exact h
  | cons e es ih => exact ih _ (tickStep_togglesOk e s h)

/-! ## Claim theorems -/

/-- C1: evaluation of the code at the failing input.  `demoHeating` is a
reachable state with the loop running, the relay on and
`consecutiveErrors = 0` under the default `maxConsecutiveErrors = 5`.
After only two consecutive failed sensor reads the loop is still running,
but after the third — not the fifth — `isRunning` is already `false` and
the timer is cancelled, because each failed tick increments the counter
twice (once in `handleSensorError`, once again in the interval callback).
Moreover no actuator-off command is ever issued on this path: the relay
command log is unchanged and the relay stays physically on with
`isHeating` still `true`. -/
theorem C1_safety_shutdown_eval :
    demoHeating.state.isRunning = true ∧
    demoHeating.intervalActive = true ∧
    demoHeating.state.isHeating = true ∧
    demoHeating.relayState = true ∧
    demoHeating.state.consecutiveErrors = 0 ∧
    demoHeating.config.maxConsecutiveErrors = 5 ∧
    (run (failTicks.take 2) demoHeating).state.isRunning = true ∧
    (run failTicks demoHeating).state.isRunning = false ∧
    (run failTicks demoHeating).intervalActive = false ∧
    (run failTicks demoHeating).state.consecutiveErrors = 6 ∧
    (run failTicks demoHeating).relayCmds = demoHeating.relayCmds ∧
    (run failTicks demoHeating).relayState = true ∧
    (run failTicks demoHeating).notifications =
      demoHeating.notifications ++ [sensorPauseMsg, tooManyErrMsg] := by
  with_unfolding_all decide

/-- C2: evaluation of the code at the failing input.  Along the public
operation sequence `shutdownOps` (start, one heating tick, then three
failed sensor reads) the safety shutdown clears `isRunning` but leaves
`isHeating = true` (and the relay energised), so the claimed invariant
`isHeating implies isRunning` is violated in a reachable state. -/
theorem C2_invariant_violation_eval :
    (run shutdownOps (initialSys 0)).state.isHeating = true ∧
    (run shutdownOps (initialSys 0)).state.isRunning = false ∧
    (run shutdownOps (initialSys 0)).relayState = true := by
  with_unfolding_all decide

/-- C3, counterexample: from the reachable state reached by start, an MQTT
relay-on command, and then `stopThermostat`, the claim fails — `stop`
returned success but the actuator is still on, and no actuator-off command
was ever issued (the only logged relay command is the MQTT on command),
because `stopThermostat` commands the relay only when `isHeating` is true
rather than unconditionally. -/
theorem C3_counterexample :
    c3fin.state.isRunning = false ∧
    c3fin.state.isHeating = false ∧
    c3fin.relayState = true ∧
    c3fin.relayCmds = [true] := by
  with_unfolding_all decide

/-- C3, amended: if the loop is running with the timer armed,
`stopThermostat` cancels the timer, sets `isHeating` and `isRunning` to
`false`, and commands the actuator off only when `isHeating` was `true`
(in which case the relay is off on return iff the relay call succeeded,
and the call result is returned); when `isHeating` was `false` no actuator
command is issued and the relay keeps its previous state.  From a
non-running state (including `Faulted`) the call is a no-op returning
`true`. -/
theorem C3_stop_amended (s : Sys) (ok : Bool) :
    (s.state.isRunning = true → s.intervalActive = true →
      (stopThermostat ok s).1.intervalActive = false ∧
      (stopThermostat ok s).1.state.isHeating = false ∧
      (stopThermostat ok s).1.state.isRunning = false ∧
      (s.state.isHeating = true →
        (stopThermostat ok s).1.relayCmds = s.relayCmds ++ [false] ∧
        (stopThermostat ok s).2 = ok ∧
        (ok = true → (stopThermostat ok s).1.relayState = false) ∧
        (ok = false → (stopThermostat ok s).1.relayState = s.relayState)) ∧
      (s.state.isHeating = false →
        (stopThermostat ok s).1.relayCmds = s.relayCmds ∧
        (stopThermostat ok s).1.relayState = s.relayState ∧
        (stopThermostat ok s).2 = true)) ∧
    (s.state.isRunning = false → stopThermostat ok s = (s, true)) ∧
    (s.intervalActive = false → stopThermostat ok s = (s, true)) := by
  unfold stopThermostat turnOffRelay
  rcases hr : s.state.isRunning <;> rcases hi : s.intervalActive <;>
    rcases hh : s.state.isHeating <;> rcases ok <;>
    simp [hr, hi, hh]

/-- C7, counterexample: with the loop already running under a configured
target of 25 °C, calling `startThermostat` again with no config argument
returns success without restarting, yet it resets the configuration:
`thermostatConfig.targetTemperature` drops back to the default 22 °C,
because the config merge happens before the `isRunning` guard. -/
theorem C7_counterexample :
    c7run.state.isRunning = true ∧
    c7run.config.targetTemperature = 25 ∧
    (startThermostat noConfig (envOk 5 20) c7run).2 = true ∧
    (startThermostat noConfig (envOk 5 20) c7run).1.config.targetTemperature = 22 := by
  with_unfolding_all decide

/-- C7, amended: calling `startThermostat` while the loop is already
running returns success and leaves the entire `ThermostatState`, the
relay, the timer and the logs unchanged, but it does not leave the
configuration unchanged: `thermostatConfig` is replaced by
`DEFAULT_CONFIG` overridden with the supplied partial config before the
`isRunning` guard is checked. -/
theorem C7_start_running_amended (cfg : PartialConfig) (e : TickEnv) (s : Sys)
    (h : s.state.isRunning = true) :
    (startThermostat cfg e s).2 = true ∧
    (startThermostat cfg e s).1.state = s.state ∧
    (startThermostat cfg e s).1.relayState = s.relayState ∧
    (startThermostat cfg e s).1.intervalActive = s.intervalActive ∧
    (startThermostat cfg e s).1.lastControlAction = s.lastControlAction ∧
    (startThermostat cfg e s).1.published = s.published ∧
    (startThermostat cfg e s).1.relayCmds = s.relayCmds ∧
    (startThermostat cfg e s).1.persistedTarget = s.persistedTarget ∧
    (startThermostat cfg e s).1.config = mergedConfig cfg := by
  unfold startThermostat
  simp [h]

/-- C7, witness for the amended theorem at a concrete running state. -/
theorem C7_start_running_amended_witness :
    (startThermostat noConfig (envOk 5 20) c7run).2 = true ∧
    (startThermostat noConfig (envOk 5 20) c7run).1.state = c7run.state :=
  ⟨(C7_start_running_amended noConfig (envOk 5 20) c7run (by with_unfolding_all decide)).1,
   (C7_start_running_amended noConfig (envOk 5 20) c7run (by with_unfolding_all decide)).2.1⟩

/-- C8: whenever the bridge is connected (with a live client), a periodic
state publish emits exactly the four retained messages, and the mode value
is `heat` when `isRunning` is `true` and `off` when it is `false`,
computed from `isRunning` alone — `isHeating` does not occur in the
published sequence. -/
theorem C8_mode_publish (now : ℤ) (s : Sys)
    (hc : s.mqtt.isConnected = true) (hp : s.clientPresent = true) :
    (publishThermostatStatus now s).published = s.published ++
      [(temperatureTopic, PVal.num s.state.currentTemperature),
       (relayTopic, PVal.bool s.relayState),
       (setpointTopic, PVal.num s.state.targetTemperature),
       (modeTopic, PVal.str (if s.state.isRunning then "heat" else "off"))] := by
  unfold publishThermostatStatus publishMessage
  simp [hc, hp]

/-- C8, witness: the connected demo process (stopped loop, not heating)
publishes mode `off`; the same state with the loop flag set publishes
`heat` while still not heating. -/
theorem C8_mode_publish_witness :
    (publishThermostatStatus 5 connectedDemo).published =
      [(temperatureTopic, PVal.num 0), (relayTopic, PVal.bool false),
       (setpointTopic, PVal.num 22), (modeTopic, PVal.str "off")] ∧
    (publishThermostatStatus 5
        { connectedDemo with state.isRunning := true }).published =
      [(temperatureTopic, PVal.num 0), (relayTopic, PVal.bool false),
       (setpointTopic, PVal.num 22), (modeTopic, PVal.str "heat")] := by
  constructor
  · rw [C8_mode_publish 5 connectedDemo (by with_unfolding_all decide) (by with_unfolding_all decide)]; with_unfolding_all decide
  · rw [C8_mode_publish 5 { connectedDemo with state.isRunning := true }
      (by with_unfolding_all decide) (by with_unfolding_all decide)]
    with_unfolding_all decide

/-- C4: the hysteresis decision.  Whenever the target is in `[5, 30]` and
the hysteresis in `(0, 5]`, `controlHeating` issues an actuator-on command
only when it is not heating and the temperature is strictly below
`target - hysteresis`, issues an actuator-off command only when it is
heating and the temperature has reached the target, and issues no actuator
command at all while the temperature lies in the deadband
`[target - hysteresis, target)`. -/
theorem C4_hysteresis_decision (s : Sys) (now : ℤ) (ok : Bool)
    (ht : 5 ≤ s.config.targetTemperature ∧ s.config.targetTemperature ≤ 30)
    (hh : 0 < s.config.hysteresis ∧ s.config.hysteresis ≤ 5) :
    ((controlHeating now ok s).relayCmds = s.relayCmds ++ [true] →
      s.state.isHeating = false ∧
      s.state.currentTemperature < s.config.targetTemperature - s.config.hysteresis) ∧
    ((controlHeating now ok s).relayCmds = s.relayCmds ++ [false] →
      s.state.isHeating = true ∧
      s.config.targetTemperature ≤ s.state.currentTemperature) ∧
    (s.config.targetTemperature - s.config.hysteresis ≤ s.state.currentTemperature →
      s.state.currentTemperature < s.config.targetTemperature →
      (controlHeating now ok s).relayCmds = s.relayCmds) := by
  unfold controlHeating
  dsimp only
  split_ifs with h1 h2 h3 h4 h5 h6 h7 <;>
    constructor <;>
    try constructor
  all_goals
    intro hx
  all_goals
    try intro hy
  all_goals
    simp_all
  all_goals
    linarith

/-- C4, witness: in the reachable heating state with the temperature held
at 21 °C — inside the deadband `[20.5, 22)` of the default configuration —
the decision issues no actuator command. -/
theorem C4_hysteresis_decision_witness :
    (controlHeating 100000 true
        { demoHeating with state.currentTemperature := 21 }).relayCmds =
      demoHeating.relayCmds := by
  have h := C4_hysteresis_decision
    { demoHeating with state.currentTemperature := 21 } 100000 true
    (by with_unfolding_all decide) (by with_unfolding_all decide)
  exact h.2.2 (by with_unfolding_all decide) (by with_unfolding_all decide)

/-- C5: the minimum-action interval.  First conjunct: from every state
whose toggle log is sound (consecutive instants at least 30 s apart, none
past `lastControlAction` — in particular any state with an empty log),
every sequence of timer ticks keeps the successful control-loop actuator
toggles at least 30000 ms apart, consecutively.  Second conjunct: the same
holds along every tick sequence of a loop started (with any config and any
initial-read outcome) from the freshly initialized process — here the
timer is armed, so ticks genuinely run and toggles genuinely occur.  Third
conjunct: whenever less than 30 s has elapsed since the last successful
toggle, the decision issues no actuator command at all — it leaves the
state entirely unchanged even if a hysteresis threshold is crossed. -/
theorem C5_min_action_interval :
    (∀ (s : Sys) (es : List TickEnv), TogglesOk s →
      List.Chain' minSep
        ((es.foldl (fun t e => tickStep e t) s).toggleTimes)) ∧
    (∀ (t0 : ℤ) (cfg : PartialConfig) (e : TickEnv) (es : List TickEnv),
      List.Chain' minSep
        ((es.foldl (fun t e2 => tickStep e2 t)
          ((startThermostat cfg e (initialSys t0)).1)).toggleTimes)) ∧
    (∀ (s : Sys) (now : ℤ) (ok : Bool),
      now - s.lastControlAction < 30000 → controlHeating now ok s = s) := by
  have main : ∀ (s : Sys) (es : List TickEnv), TogglesOk s →
      List.Chain' minSep
        ((es.foldl (fun t e => tickStep e t) s).toggleTimes) :=
    fun s es h => (ticks_togglesOk es s h).1
  refine ⟨main, ?_, ?_⟩
  · intro t0 cfg e es
    refine main _ es ?_
    constructor
    · simp [initialSys]
    · intro t ht
      simp [initialSys] at ht
  · intro s now ok hgate
    rcases hr : s.state.isRunning <;> simp [controlHeating, hr, hgate]

/-- C5, witness: a loop started from the initial process at load time 0,
ticked at 40000 ms (reading 19 °C, toggling the relay on) and at
100000 ms (reading 23 °C, toggling it off), yields the separated toggle
log `[40000, 100000]` — two genuine toggles, 60 s apart — and at module
load a decision 0 ms later changes nothing. -/
theorem C5_min_action_interval_witness :
    List.Chain' minSep
      (([envOk 40000 19, envOk 100000 23].foldl (fun t e2 => tickStep e2 t)
        ((startThermostat noConfig (envOk 0 19) (initialSys 0)).1)).toggleTimes) ∧
    ([envOk 40000 19, envOk 100000 23].foldl (fun t e2 => tickStep e2 t)
        ((startThermostat noConfig (envOk 0 19) (initialSys 0)).1)).toggleTimes =
      [40000, 100000] ∧
    controlHeating 0 true (initialSys 0) = initialSys 0 :=
  ⟨C5_min_action_interval.2.1 0 noConfig (envOk 0 19) [envOk 40000 19, envOk 100000 23],
   by with_unfolding_all decide,
   C5_min_action_interval.2.2 (initialSys 0) 0 true (by with_unfolding_all decide)⟩

/-- C3, witness for the amended theorem: stopping the reachable
running-and-heating state clears the running flag. -/
theorem C3_stop_amended_witness :
    (stopThermostat true demoHeating).1.state.isRunning = false ∧
    (stopThermostat true demoHeating).1.relayCmds = demoHeating.relayCmds ++ [false] :=
  ⟨((C3_stop_amended demoHeating true).1 (by with_unfolding_all decide)
      (by with_unfolding_all decide)).2.2.1,
   (((C3_stop_amended demoHeating true).1 (by with_unfolding_all decide)
      (by with_unfolding_all decide)).2.2.2.1 (by with_unfolding_all decide)).1⟩
@[simp] theorem publishThermostatStatus_reconnectAttempts (n : ℤ) (s : Sys) :
    (publishThermostatStatus n s).mqtt.reconnectAttempts =
      s.mqtt.reconnectAttempts := by
  unfold publishThermostatStatus; dsimp only; split_ifs <;> simp

@[simp] theorem controlHeating_targetTemperature (now : ℤ) (ok : Bool) (s : Sys) :
    (controlHeating now ok s).state.targetTemperature = s.state.targetTemperature := by
  unfold controlHeating; dsimp only; split_ifs <;> simp

@[simp] theorem controlHeating_config (now : ℤ) (ok : Bool) (s : Sys) :
    (controlHeating now ok s).config = s.config := by
  unfold controlHeating; dsimp only; split_ifs <;> simp

@[simp] theorem controlHeating_persistedTarget (now : ℤ) (ok : Bool) (s : Sys) :
    (controlHeating now ok s).persistedTarget = s.persistedTarget := by
  unfold controlHeating; dsimp only; split_ifs <;> simp

@[simp] theorem controlHeating_isRunning (now : ℤ) (ok : Bool) (s : Sys) :
    (controlHeating now ok s).state.isRunning = s.state.isRunning := by
  unfold controlHeating; dsimp only; split_ifs <;> simp

@[simp] theorem controlHeating_intervalActive (now : ℤ) (ok : Bool) (s : Sys) :
    (controlHeating now ok s).intervalActive = s.intervalActive := by
  unfold controlHeating; dsimp only; split_ifs <;> simp

/-- C6: `setTargetTemperature`.  For every value outside `[5, 30]` the call
fails, recording a range error and leaving everything except `lastError`
unchanged (in particular `targetTemperature` in both the state and the
config, and the persisted value).  For every value in `[5, 30]` (with the
persistence succeeding) the call succeeds, updates `targetTemperature` in
the state and the config, and persists the value; and when the loop is
running the hysteresis decision is re-evaluated immediately: under toggle
conditions (fresh reading below the new lower limit, idle relay, interval
elapsed) the relay is switched on by this very call, without waiting for a
tick. -/
theorem C6_setTarget_range_and_apply (v : ℚ) (dbOk : Bool) (e : TickEnv) (s : Sys) :
    (¬ (5 ≤ v ∧ v ≤ 30) →
      setTargetTemperature v dbOk e s =
        ({ s with state.lastError := some rangeTempErrMsg }, false)) ∧
    (5 ≤ v → v ≤ 30 → dbOk = true →
      (setTargetTemperature v dbOk e s).2 = true ∧
      (setTargetTemperature v dbOk e s).1.state.targetTemperature = v ∧
      (setTargetTemperature v dbOk e s).1.config.targetTemperature = v ∧
      (setTargetTemperature v dbOk e s).1.persistedTarget = some v) ∧
    (∀ c : ℚ, 5 ≤ v → v ≤ 30 → dbOk = true → s.state.isRunning = true →
      e.sensor = some c → e.relayOk = true → s.relayState = false →
      30000 ≤ e.now - s.lastControlAction → c < v - s.config.hysteresis →
      (setTargetTemperature v dbOk e s).1.relayState = true ∧
      (setTargetTemperature v dbOk e s).1.relayCmds = s.relayCmds ++ [true]) := by
  refine ⟨?_, ?_, ?_⟩
  · intro hout
    have hval : validateTemperatureValue v = false := by
      rcases hd : validateTemperatureValue v
      · rfl
      · exfalso
        apply hout
        unfold validateTemperatureValue at hd
        simpa using hd
    unfold setTargetTemperature
    rw [if_pos (by rw [hval]; rfl)]
  · intro h5 h30 hdb
    unfold setTargetTemperature validateTemperatureValue
    rw [if_neg (by simp [h5, h30]), hdb]
    dsimp only
    split_ifs with hrun <;> simp_all
  · intro c h5 h30 hdb hrun hsen hrok hrel hgate hlt
    unfold setTargetTemperature validateTemperatureValue
    rw [if_neg (by simp [h5, h30]), hdb]
    dsimp only
    rw [if_pos (by simpa using hrun)]
    simp only [updateCurrentState, hsen]
    unfold controlHeating turnOnRelay
    dsimp only
    simp [hrun, hrel, hrok, hlt, not_lt.2 hgate]

/-- C6, witness: `setTarget(3)` fails with the range error leaving the
target unchanged, and `setTarget(24)` succeeds and updates it. -/
theorem C6_setTarget_witness :
    (setTargetTemperature 3 true (envOk 0 20) (initialSys 0)).2 = false ∧
    (setTargetTemperature 3 true (envOk 0 20) (initialSys 0)).1.state.targetTemperature = 22 ∧
    (setTargetTemperature 31 true (envOk 0 20) (initialSys 0)).2 = false ∧
    (setTargetTemperature 24 true (envOk 0 20) (initialSys 0)).1.state.targetTemperature = 24 := by
  refine ⟨?_, ?_, ?_, ?_⟩
  · rw [(C6_setTarget_range_and_apply 3 true (envOk 0 20) (initialSys 0)).1
      (by intro h; exact absurd h.1 (by norm_num))]
  · rw [(C6_setTarget_range_and_apply 3 true (envOk 0 20) (initialSys 0)).1
      (by intro h; exact absurd h.1 (by norm_num))]
    with_unfolding_all decide
  · rw [(C6_setTarget_range_and_apply 31 true (envOk 0 20) (initialSys 0)).1
      (by intro h; exact absurd h.2 (by norm_num))]
  · exact ((C6_setTarget_range_and_apply 24 true (envOk 0 20) (initialSys 0)).2.1
      (by norm_num) (by norm_num) rfl).2.1

/-- C9: the bridge reconnect policy.  On every successful connect the
reconnect counter is reset to 0.  When a reconnect attempt brings the
counter to `maxReconnectAttempts` (10), the bridge disables itself
(`isEnabled = false`), cancels the periodic publish timer and drops the
client; and with no client present, further reconnect events are no-ops —
nothing happens until the service is explicitly restarted. -/
theorem C9_bridge_reconnect_policy :
    (∀ (now : ℤ) (s : Sys), s.clientPresent = true →
      (onConnect now s).mqtt.reconnectAttempts = 0) ∧
    (∀ s : Sys, s.clientPresent = true → s.mqtt.maxReconnectAttempts = 10 →
      9 ≤ s.mqtt.reconnectAttempts →
      (onReconnect s).mqtt.isEnabled = false ∧
      (onReconnect s).publishTimerActive = false ∧
      (onReconnect s).clientPresent = false) ∧
    (∀ s : Sys, s.clientPresent = false → onReconnect s = s) := by
  refine ⟨?_, ?_, ?_⟩
  · intro now s h
    unfold onConnect
    rw [if_pos h]
    dsimp only
    simp
  · intro s hcp hmax hcnt
    unfold onReconnect
    rw [if_pos hcp]
    dsimp only
    rw [if_pos (by simp [hmax]; omega)]
    unfold stopMqtt
    dsimp only
    rw [if_pos (by simpa using hcp)]
    split_ifs <;> simp
  · intro s h
    unfold onReconnect
    rw [if_neg (by simp [h])]

/-- C9, witness: a connected client resets the counter; a tenth reconnect
attempt disables and drops the client. -/
theorem C9_bridge_reconnect_policy_witness :
    (onConnect 0 connectedDemo).mqtt.reconnectAttempts = 0 ∧
    (onReconnect reconnectDemo).clientPresent = false :=
  ⟨C9_bridge_reconnect_policy.1 0 connectedDemo (by with_unfolding_all decide),
   (C9_bridge_reconnect_policy.2.1 reconnectDemo (by with_unfolding_all decide)
      (by with_unfolding_all decide) (by with_unfolding_all decide)).2.2⟩

/-- C10: the MQTT relay command handler.  For every payload whose `value`
field is the boolean `b`, the handler issues exactly the actuator command
`b` (latched on success), regardless of `isRunning` and of the time since
the last toggle, and republishes the relay state topic when the bridge is
connected; and it changes no field of `ThermostatState` — `isHeating`,
`lastError` and `consecutiveErrors` included — nor the config, the timer,
`lastControlAction` or the toggle log. -/
theorem C10_relay_command_frame (p : Payload) (b ok : Bool) (s : Sys)
    (h : lookupField "value" p = some (PVal.bool b)) :
    (handleRelayCommand p ok s).state = s.state ∧
    (handleRelayCommand p ok s).config = s.config ∧
    (handleRelayCommand p ok s).intervalActive = s.intervalActive ∧
    (handleRelayCommand p ok s).lastControlAction = s.lastControlAction ∧
    (handleRelayCommand p ok s).toggleTimes = s.toggleTimes ∧
    (handleRelayCommand p ok s).notifications = s.notifications ∧
    (handleRelayCommand p ok s).persistedTarget = s.persistedTarget ∧
    (handleRelayCommand p ok s).relayCmds = s.relayCmds ++ [b] ∧
    (ok = true → (handleRelayCommand p ok s).relayState = b) ∧
    (ok = false → (handleRelayCommand p ok s).relayState = s.relayState) ∧
    (s.clientPresent = true → s.mqtt.isConnected = true →
      (handleRelayCommand p ok s).published = s.published ++ [(relayTopic, PVal.bool b)]) := by
  unfold handleRelayCommand
  rw [h]
  dsimp only
  rcases b <;> rcases ok <;>
    refine ⟨by simp, by simp, by simp, by simp, by simp, by simp, by simp,
      by simp, ?_, ?_, ?_⟩ <;>
    (intro h1
     try intro h2
     simp_all [publishMessage, apply_ite Sys.relayState])

/-- C10, witness: a relay-on command in the fresh (stopped, recently
toggled) process switches the relay on and leaves `ThermostatState`
untouched. -/
theorem C10_relay_command_frame_witness :
    (handleRelayCommand relayOnPayload true (initialSys 0)).relayCmds = [true] ∧
    (handleRelayCommand relayOnPayload true (initialSys 0)).state = (initialSys 0).state := by
  have h := C10_relay_command_frame relayOnPayload true true (initialSys 0)
    (by with_unfolding_all decide)
  exact ⟨h.2.2.2.2.2.2.2.1, h.1⟩

end Thermostat
